import Mathlib

/-!
Verification of the stats-synthesis endpoint (`live_stats`, src/main.py,
lines 104-132) of the hospital-management backend.

The handler reads two counts from a document store:
  - `doctors_count = db["doctor"].count_documents({"on_duty": True}) if db else 0`
  - `todays_appts  = db["appointment"].count_documents({"date": today}) if db else 0`
and then computes four clamped display metrics.  If any exception is raised
inside the `try` block (a store query failing), it returns the fixed
fallback snapshot `{"wait": 15, "beds": 82, "doctors": 24, "activity": 70,
"note": str(e)}`.

Embedding notes:
  - Counts from `count_documents` are non-negative integers, so they are
    `Nat` here; Python floor division `//` on non-negative operands equals
    `Nat` division.  Intermediate values that can go negative in Python
    (`10 + A//3 - D//5`) are computed in `Int`.
  - `round((occupied_beds / total_beds) * 100)` uses Python's `round` on a
    float, which rounds half to even.  We embed it as exact rational
    round-half-to-even (`pyRound`).  This is faithful: the exact value
    `occupied * 2 / 5` has denominator 5, so it is never at distance less
    than 1/10 from a half-integer, while the double-precision evaluation of
    `(occupied / 250) * 100` for `occupied ≤ 250` carries error far below
    1/10, so the float rounds to the same integer as the exact rational.
  - The global handle `db` comes from `database.py`, which is not part of
    the source under review; following the spec's description of it as "the
    implicit global database handle (checked for null before each query)",
    the truthiness test `if db` is modelled as a presence check, and each
    query against a present store either returns a count or raises with a
    message `str(e)`.  `StoreOutcome` enumerates the possible behaviours of
    the two sequential queries inside the `try` block.
-/

/-- Result snapshot of the `/stats` endpoint: the JSON object returned by
`live_stats`.  `wait` and `activity` are produced by `Int` arithmetic before
clamping; `beds` and `doctors` are non-negative by construction.  `note` is
present only on the fallback path. -/
structure StatsSnapshot where
  wait : Int
  beds : Nat
  doctors : Nat
  activity : Int
  note : Option String
  deriving Repr, DecidableEq

/-- Behaviour of the store during one invocation of the handler, as seen by
the code in the `try` block: either `db` is falsy (both counts default to 0
and no query runs), or both queries succeed with counts `D` and `A`, or the
doctor-count query raises, or the doctor-count query succeeds and the
appointment-count query raises.  `msg` is `str(e)` of the raised error. -/
inductive StoreOutcome where
  | noDb : StoreOutcome
  | ok (D A : Nat) : StoreOutcome
  | errDoctors (msg : String) : StoreOutcome
  | errAppts (D : Nat) (msg : String) : StoreOutcome
  deriving Repr, DecidableEq

/-- Python's `round` for the non-negative rational `p / q` (`q > 0`):
round half to even. -/
def pyRound (p q : Nat) : Nat :=
  if 2 * (p % q) < q then p / q
  else if q < 2 * (p % q) then p / q + 1
  else if (p / q) % 2 = 0 then p / q else p / q + 1

/-- Source line 112: `total_beds = 250`. -/
def total_beds : Nat := 250

/-- Source line 113: `occupied_beds = min(total_beds, 150 + (doctors_count // 2) * 3)`. -/
def occupied_beds (D : Nat) : Nat :=
  min total_beds (150 + (D / 2) * 3)

/-- Source line 114: `bed_pct = round((occupied_beds / total_beds) * 100)`. -/
def bed_pct (D : Nat) : Nat :=
  pyRound (occupied_beds D * 100) total_beds

/-- Source line 119: `wait_min = max(5, min(45, 10 + todays_appts // 3 - doctors_count // 5))`. -/
def wait_min (D A : Nat) : Int :=
  max 5 (min 45 (10 + ((A / 3 : Nat) : Int) - ((D / 5 : Nat) : Int)))

/-- Source line 122: `activity = max(40, min(95, 60 + doctors_count * 2 - todays_appts // 4))`. -/
def activity (D A : Nat) : Int :=
  max 40 (min 95 (60 + (D : Int) * 2 - ((A / 4 : Nat) : Int)))

/-- Source line 127: `max(12, doctors_count or 24)`; in Python
`doctors_count or 24` is 24 exactly when `doctors_count == 0`. -/
def doctors_field (D : Nat) : Nat :=
  max 12 (if D = 0 then 24 else D)

/-- Source lines 111-129: the snapshot built on the success path of the
`try` block from counts `D` (on-duty doctors) and `A` (appointments today). -/
def computeStats (D A : Nat) : StatsSnapshot :=
  { wait := wait_min D A
    beds := bed_pct D
    doctors := doctors_field D
    activity := activity D A
    note := none }

/-- Source line 132: the fixed fallback snapshot with `note = str(e)`. -/
def fallbackStats (msg : String) : StatsSnapshot :=
  { wait := 15, beds := 82, doctors := 24, activity := 70, note := some msg }

/-- Source lines 104-132: the whole `/stats` handler as a function of the
store behaviour.  When `db` is falsy both counts are 0 and the success path
runs; when a query raises, the `except` branch returns the fallback. -/
def live_stats : StoreOutcome → StatsSnapshot
  | StoreOutcome.noDb => computeStats 0 0
  | StoreOutcome.ok D A => computeStats D A
  | StoreOutcome.errDoctors msg => fallbackStats msg
  | StoreOutcome.errAppts _ msg => fallbackStats msg

/-- The handler as a state-passing computation: `count_documents` queries
are read-only, so the invocation returns the snapshot together with the
unchanged store. -/
def live_statsInvoke (o : StoreOutcome) : StatsSnapshot × StoreOutcome :=
  (live_stats o, o)

/-- Spec section 4.1, step clamp: `clamp(x, low, high)`, written here with
the opposite nesting to the source's `max(low, min(high, x))` so that the
refinement proof below checks their agreement. -/
def specClamp (x low high : Int) : Int :=
  min high (max low x)

/-- Spec section 4.1, steps 1-7, transcribed from the spec's words: the
reference algorithm for the success path.  The spec leaves the rounding
rule open ("either common rounding rule suffices"); round-half-to-even is
used, matching the host runtime. -/
def specSnapshot (D A : Nat) : StatsSnapshot :=
  let totalBeds : Nat := 250
  let occupiedBeds : Nat := min totalBeds (150 + (D / 2) * 3)
  let bedOccupancyPercent : Nat := pyRound (occupiedBeds * 100) totalBeds
  let waitMinutes : Int :=
    specClamp (10 + ((A / 3 : Nat) : Int) - ((D / 5 : Nat) : Int)) 5 45
  let activityScore : Int :=
    specClamp (60 + (D : Int) * 2 - ((A / 4 : Nat) : Int)) 40 95
  let doctorsOnDuty : Nat := max 12 (if D ≠ 0 then D else 24)
  { wait := waitMinutes
    beds := bedOccupancyPercent
    doctors := doctorsOnDuty
    activity := activityScore
    note := none }

lemma pyRound_ge_div (p q : Nat) : p / q ≤ pyRound p q := by
  unfold pyRound
  split
  · exact Nat.le_refl _
  · split
    · exact Nat.le_succ _
    · split
      · exact Nat.le_refl _
      · exact Nat.le_succ _

lemma pyRound_le_div_succ (p q : Nat) : pyRound p q ≤ p / q + 1 := by
  unfold pyRound
  split
  · exact Nat.le_succ _
  · split
    · exact Nat.le_refl _
    · split
      · exact Nat.le_succ _
      · exact Nat.le_refl _

lemma pyRound_exact (p q : Nat) (hq : 0 < q) (hdvd : p % q = 0) :
    pyRound p q = p / q := by
  unfold pyRound
  rw [hdvd]
  simp [hq]

lemma occupied_beds_bounds (D : Nat) :
    150 ≤ occupied_beds D ∧ occupied_beds D ≤ 250 := by
  unfold occupied_beds total_beds
  omega

lemma bed_pct_bounds (D : Nat) : 60 ≤ bed_pct D ∧ bed_pct D ≤ 100 := by
  obtain ⟨hlo, hhi⟩ := occupied_beds_bounds D
  unfold bed_pct total_beds
  constructor
  · have h1 : 60 ≤ occupied_beds D * 100 / 250 := by omega
    exact le_trans h1 (pyRound_ge_div _ _)
  · rcases Nat.lt_or_ge (occupied_beds D) 250 with hlt | hge
    · have h1 : occupied_beds D * 100 / 250 + 1 ≤ 100 := by omega
      exact le_trans (pyRound_le_div_succ _ _) h1
    · have heq : occupied_beds D = 250 := le_antisymm hhi hge
      rw [heq, pyRound_exact 25000 250 (by omega) (by norm_num)]

lemma computeStats_wf (D A : Nat) :
    5 ≤ (computeStats D A).wait ∧ (computeStats D A).wait ≤ 45 ∧
    (computeStats D A).beds ≤ 100 ∧ 12 ≤ (computeStats D A).doctors ∧
    40 ≤ (computeStats D A).activity ∧ (computeStats D A).activity ≤ 95 := by
  have hb := bed_pct_bounds D
  simp only [computeStats, wait_min, activity, doctors_field]
  refine ⟨by omega, by omega, hb.2, le_max_left _ _, by omega, by omega⟩

/-- C1: for every pair of non-negative counts D (on-duty doctors) and A
(appointments today), the snapshot computed on the success path of
`live_stats` satisfies all four range postconditions:
5 ≤ wait ≤ 45, 0 ≤ beds ≤ 100, doctors ≥ 12, 40 ≤ activity ≤ 95. -/
theorem c1_success_path_ranges (D A : Nat) :
    5 ≤ (live_stats (StoreOutcome.ok D A)).wait ∧
    (live_stats (StoreOutcome.ok D A)).wait ≤ 45 ∧
    0 ≤ (live_stats (StoreOutcome.ok D A)).beds ∧
    (live_stats (StoreOutcome.ok D A)).beds ≤ 100 ∧
    12 ≤ (live_stats (StoreOutcome.ok D A)).doctors ∧
    40 ≤ (live_stats (StoreOutcome.ok D A)).activity ∧
    (live_stats (StoreOutcome.ok D A)).activity ≤ 95 := by
  obtain ⟨h1, h2, h3, h4, h5, h6⟩ := computeStats_wf D A
  exact ⟨h1, h2, Nat.zero_le _, h3, h4, h5, h6⟩

/-- C2: for every pair of non-negative counts D and A, the success path of
`live_stats` computes exactly the reference algorithm of the spec
(`specSnapshot`): occupiedBeds = min(250, 150 + (D div 2) * 3),
bedOccupancyPercent = round(occupiedBeds / 250 * 100),
waitMinutes = clamp(10 + A div 3 - D div 5, 5, 45),
activityScore = clamp(60 + D*2 - A div 4, 40, 95),
doctorsOnDuty = max(12, D if D ≠ 0 else 24), with floor division throughout
and clamping applied only after the arithmetic. -/
theorem c2_matches_reference_algorithm (D A : Nat) :
    live_stats (StoreOutcome.ok D A) = specSnapshot D A := by
  simp only [live_stats, computeStats, specSnapshot, wait_min, activity,
    doctors_field, bed_pct, occupied_beds, total_beds, specClamp,
    StatsSnapshot.mk.injEq]
  refine ⟨by omega, trivial, ?_, by omega, trivial⟩
  by_cases h : D = 0 <;> simp [h]

/-- C3 counterexample: the claim demands a non-empty note on every store
error, but an error whose description `str(e)` is the empty string yields
the note `some ""`, which is empty (length 0). -/
theorem c3_counterexample :
    (live_stats (StoreOutcome.errDoctors "")).note = some "" ∧
    String.length "" = 0 := ⟨rfl, rfl⟩

/-- C3 (amended): for every error raised while obtaining either count, the
handler skips the algorithm and returns exactly the fixed fallback snapshot
{wait: 15, beds: 82, doctors: 24, activity: 70} with a note equal to the
error description verbatim (untruncated, and empty exactly when the error
message is empty). -/
theorem c3_error_fallback (msg : String) (D : Nat) :
    live_stats (StoreOutcome.errDoctors msg) =
      { wait := 15, beds := 82, doctors := 24, activity := 70,
        note := some msg } ∧
    live_stats (StoreOutcome.errAppts D msg) =
      { wait := 15, beds := 82, doctors := 24, activity := 70,
        note := some msg } := ⟨rfl, rfl⟩

/-- C4 counterexample: when the database handle is absent, the handler does
not return the fallback snapshot {15, 82, 24, 70}: it returns beds = 60
(not 82), wait = 10 (not 15), and carries no note. -/
theorem c4_counterexample :
    (live_stats StoreOutcome.noDb).beds = 60 ∧
    (live_stats StoreOutcome.noDb).beds ≠ 82 ∧
    (live_stats StoreOutcome.noDb).wait = 10 ∧
    (live_stats StoreOutcome.noDb).note = none := by decide

/-- C4 (amended): when the store is not initialized (the database handle is
falsy), no query is attempted and both counts default to 0, so the handler
runs the success path and returns the computed snapshot for D = 0, A = 0,
namely {wait: 10, beds: 60, doctors: 24, activity: 60} with no note; the
fallback snapshot is returned only when a store query raises. -/
theorem c4_noDb_runs_success_path :
    live_stats StoreOutcome.noDb = computeStats 0 0 ∧
    computeStats 0 0 =
      { wait := 10, beds := 60, doctors := 24, activity := 60,
        note := none } := ⟨rfl, by decide⟩

/-- C5: for every store behaviour (db absent, both counts obtained, or
either query raising), `live_stats` totally returns a snapshot — the
except-branch absorbs every error — and every returned snapshot, the
fallback included, has all four fields within the clamp ranges. -/
theorem c5_never_propagates_always_wellformed (o : StoreOutcome) :
    5 ≤ (live_stats o).wait ∧ (live_stats o).wait ≤ 45 ∧
    (live_stats o).beds ≤ 100 ∧ 12 ≤ (live_stats o).doctors ∧
    40 ≤ (live_stats o).activity ∧ (live_stats o).activity ≤ 95 := by
  cases o with
  | noDb => exact computeStats_wf 0 0
  | ok D A => exact computeStats_wf D A
  | errDoctors msg =>
      refine ⟨?_, ?_, ?_, ?_, ?_, ?_⟩ <;> norm_num [live_stats, fallbackStats]
  | errAppts D msg =>
      refine ⟨?_, ?_, ?_, ?_, ?_, ?_⟩ <;> norm_num [live_stats, fallbackStats]

/-- C6: the substitution of 24 happens only when D is exactly zero: D = 0
gives 24; every D with 1 ≤ D ≤ 11 gives the floor 12 (not 24); every
D ≥ 12 gives D itself. -/
theorem c6_doctors_substitution_only_at_zero :
    doctors_field 0 = 24 ∧
    (∀ D : Nat, 1 ≤ D → D ≤ 11 → doctors_field D = 12) ∧
    (∀ D : Nat, 12 ≤ D → doctors_field D = D) := by
  refine ⟨rfl, ?_, ?_⟩ <;> intro D <;> intros <;>
    simp only [doctors_field] <;> split <;> omega

/-- C6 witness: the middle and last conjuncts evaluated at D = 5 and
D = 20. -/
theorem c6_witness : doctors_field 5 = 12 ∧ doctors_field 20 = 20 :=
  ⟨c6_doctors_substitution_only_at_zero.2.1 5 (by norm_num) (by norm_num),
   c6_doctors_substitution_only_at_zero.2.2 20 (by norm_num)⟩

/-- C7: on input D = 24, A = 9 the success path returns occupiedBeds = 186,
bedOccupancyPercent = 74, waitMinutes = 9, activityScore = 95 (the raw
score 60 + 48 - 2 = 106 exceeds the 95 cap), and doctorsOnDuty = 24. -/
theorem c7_example_D24_A9 :
    occupied_beds 24 = 186 ∧
    (60 + (24 : Int) * 2 - ((9 / 4 : Nat) : Int) = 106) ∧
    live_stats (StoreOutcome.ok 24 9) =
      { wait := 9, beds := 74, doctors := 24, activity := 95,
        note := none } := by decide

/-- C8: on input D = 0, A = 0 the success path returns occupiedBeds = 150,
bedOccupancyPercent = 60, waitMinutes = 10, activityScore = 60, and
doctorsOnDuty = 24. -/
theorem c8_example_D0_A0 :
    occupied_beds 0 = 150 ∧
    live_stats (StoreOutcome.ok 0 0) =
      { wait := 10, beds := 60, doctors := 24, activity := 60,
        note := none } := by decide

/-- C9: the synthesizer is deterministic and effect-free: an invocation
leaves the store state unchanged, and two invocations against identical
store outcomes return identical snapshots. -/
theorem c9_deterministic (o₁ o₂ : StoreOutcome) (h : o₁ = o₂) :
    (live_statsInvoke o₁).2 = o₁ ∧
    (live_statsInvoke o₁).1 = (live_statsInvoke o₂).1 := by
  subst h; exact ⟨rfl, rfl⟩

/-- C9 witness: the determinism theorem at the concrete outcome
D = 3, A = 4. -/
theorem c9_witness :
    (live_statsInvoke (StoreOutcome.ok 3 4)).2 = StoreOutcome.ok 3 4 ∧
    (live_statsInvoke (StoreOutcome.ok 3 4)).1 =
      (live_statsInvoke (StoreOutcome.ok 3 4)).1 :=
  c9_deterministic (StoreOutcome.ok 3 4) (StoreOutcome.ok 3 4) rfl

/-- C10 (implicit): for every D and A, the success-path bed occupancy
percentage is at least 60, because occupied beds
min(250, 150 + (D div 2) * 3) is always at least 150 out of 250 — a
strictly tighter lower bound than the spec's stated 0. -/
theorem c10_beds_at_least_60 (D A : Nat) :
    150 ≤ occupied_beds D ∧ 60 ≤ (live_stats (StoreOutcome.ok D A)).beds :=
  ⟨(occupied_beds_bounds D).1, (bed_pct_bounds D).1⟩
